import Mathlib

/-!
Verification of the civitai-prompt-app repository: a shallow embedding of
the categorization, variant-normalization, aggregation and fallback-synthesis
code from analyze_data.py, app.py and app_2.py, together with theorems
settling the specification claims.

Modelling conventions:
* Python strings are `String` (or `List Char` where character scanning is
  needed); `str.lower` is a per-char `Char.toLower` map (`pyLowerStr`)
  (the repository data is ASCII, where the two coincide).
* Python dict literals are association lists in source order; duplicate keys
  resolve by the last binding, as in Python (`pyDictGet`).
* `random.choice` over a non-empty list is modelled by an arbitrary natural
  number reduced modulo the list length, so quantifying over the number
  quantifies over every possible random draw.
-/

namespace Civitai

/-- VARIATION_MAP of app_2.py, transcribed literally as an association list in
source order.  The Python source is a dict literal, so the key `standing`
appears twice (second and twenty-third entries); building the dict keeps only
the last binding. -/
def VARIATION_MAP : List (String × List String) :=
  [ ("sitting", ["sitting", "seated", "sit", "sits", "sitting down", "sits down"]),
    ("standing", ["standing", "stand", "stands", "standing up", "stands up"]),
    ("lying", ["lying", "lay", "lying down", "lies", "laid", "lies down"]),
    ("realistic photograph", ["realistic photograph", "photorealistic", "realistic photo", "photograph", "photo of", "realistic", "real life photo"]),
    ("large breasts", ["large breasts", "big breasts", "huge breasts", "massive breasts", "big breast"]),
    ("smile", ["smile", "smiling", "smiles", "smiled", "smiling face"]),
    ("naked", ["naked", "nude", "bare", "undressed", "unclothed", "without clothes"]),
    ("topless", ["topless", "top less", "top-less", "breasts exposed"]),
    ("outdoor", ["outdoor", "outside", "outdoors", "outside", "exterior"]),
    ("beach", ["beach", "seaside", "shore", "sand", "tropical beach", "beachside"]),
    ("sunset", ["sunset", "sundown", "golden hour", "dusk", "sunset time"]),
    ("bikini", ["bikini", "swimsuit", "swimwear", "bikini bottom", "bikini top"]),
    ("pinup", ["pinup pose", "pin-up", "pinup", "pin-up style"]),
    ("athletic", ["athletic", "fit", "toned", "fitness", "sporty"]),
    ("curvy", ["curvy", "curvaceous", "hourglass figure", "voluptuous", "curvaceous figure"]),
    ("blonde", ["blonde", "blond", "yellow hair", "golden hair", "fair hair"]),
    ("brunette", ["brunette", "brown hair", "chestnut hair", "dark brown hair"]),
    ("red hair", ["red hair", "auburn hair", "ginger hair", "redhead"]),
    ("long hair", ["long hair", "very long hair", "waist length hair", "flowing hair"]),
    ("short hair", ["short hair", "short styled hair", "bob cut", "pixie cut"]),
    ("blue eyes", ["blue eyes", "azure eyes", "cerulean eyes", "sapphire eyes"]),
    ("green eyes", ["green eyes", "emerald eyes", "jade eyes", "forest green eyes"]),
    ("standing", ["standing", "stands", "upright", "on feet"]),
    ("kneeling", ["kneeling", "kneel", "kneeling down", "on knees"]),
    ("squatting", ["squatting", "squat", "crouching", "in a squat"]),
    ("from behind", ["from behind", "rear view", "back view", "seen from behind"]),
    ("from above", ["from above", "bird view", "aerial view", "overhead"]),
    ("close-up", ["close-up", "closeup", "close up", "tight shot"]),
    ("full body", ["full body", "full shot", "entire figure", "whole body"]),
    ("portrait", ["portrait", "portrait shot", "face focus", "head and shoulders"]),
    ("studio", ["studio", "photo studio", "indoor studio", "controlled studio"]),
    ("indoor", ["indoor", "inside", "indoors", "interior"]),
    ("forest", ["forest", "woods", "trees", "woodland", "forested"]),
    ("dynamic lighting", ["dynamic lighting", "dramatic lighting", "striking lighting", "chiaroscuro"]),
    ("soft lighting", ["soft lighting", "柔和光线", "gentle lighting", "diffused light"]),
    ("natural lighting", ["natural lighting", "daylight", "sunlight", "natural light"]) ]

/-- Python str.lower, modelled as a per-character lowercasing (identical to
the Python behaviour on the ASCII data of this repository). -/
def pyLowerStr (s : String) : String :=
  String.mk (s.data.map Char.toLower)

/-- Lookup in a Python dict built from an association-list literal: the last
binding of a duplicated key wins, so we look the key up in the reversed list. -/
def pyDictGet (entries : List (String × List String)) (k : String) : Option (List String) :=
  entries.reverse.lookup k

/-- Element drawn by `random.choice` from a list, modelled by an arbitrary
index taken modulo the length; the default is only reached on an empty list,
where Python would raise. -/
def choiceOf (l : List String) (k : Nat) : String :=
  l.getD (k % l.length) ""

/-- get_random_variation of app_2.py: look the lowercased term up in
VARIATION_MAP, defaulting to the singleton of the term itself, and draw one
entry at random (the draw index is the explicit argument `k`). -/
def get_random_variation (term : String) (k : Nat) : String :=
  let variations := (pyDictGet VARIATION_MAP (pyLowerStr term)).getD [term]
  variations.getD (k % variations.length) term

/-- Helper: an element selected by `getD` at an in-range index is a member. -/
theorem getD_mem {α : Type} (l : List α) (i : Nat) (d : α) (h : i < l.length) :
    l.getD i d ∈ l := by
  induction l generalizing i with
  | nil => simp at h
  | cons a t ih =>
    cases i with
    | zero => simp [List.getD]
    | succ j =>
      have hj : j < t.length := by simpa using h
      simpa [List.getD] using Or.inr (ih j hj)

/-- Helper: a successful lookup returns a value stored in the list. -/
theorem lookup_mem_values {α β : Type} [BEq α] [LawfulBEq α]
    (l : List (α × β)) (k : α) (v : β) (h : l.lookup k = some v) :
    ∃ k₂, (k₂, v) ∈ l := by
  induction l with
  | nil => simp [List.lookup] at h
  | cons e t ih =>
    rw [List.lookup] at h
    cases hk : k == e.1 with
    | true =>
      rw [hk] at h
      exact ⟨e.1, by cases h; simp⟩
    | false =>
      rw [hk] at h
      obtain ⟨k₂, hm⟩ := ih h
      exact ⟨k₂, List.mem_cons_of_mem _ hm⟩

/-- Helper: every variant list stored in VARIATION_MAP is non-empty. -/
theorem VARIATION_MAP_values_nonempty :
    ∀ e ∈ VARIATION_MAP, e.2 ≠ [] := by decide

/-- C2: the variant lookup is total.  For every term whose lowercase form is a
key of the variant table, every possible random draw returns a member of that
key's (effective) variant list; for every term whose lowercase form is not a
key, the original term is returned unchanged. -/
theorem get_random_variation_total (term : String) (k : Nat) :
    (∀ vs, pyDictGet VARIATION_MAP (pyLowerStr term) = some vs →
        get_random_variation term k ∈ vs) ∧
    (pyDictGet VARIATION_MAP (pyLowerStr term) = none →
        get_random_variation term k = term) := by
  constructor
  · intro vs hvs
    have hne : vs ≠ [] := by
      obtain ⟨k₂, hm⟩ := lookup_mem_values _ _ _ hvs
      exact VARIATION_MAP_values_nonempty (k₂, vs) (List.mem_reverse.mp hm)
    have hlen : 0 < vs.length := List.length_pos.mpr hne
    simp only [get_random_variation, hvs, Option.getD_some]
    exact getD_mem vs _ term (Nat.mod_lt _ hlen)
  · intro hnone
    simp [get_random_variation, hnone, List.getD]

/-- Witness for C2: a mixed-case known term resolves into its variant class,
and an unknown term passes through unchanged. -/
theorem get_random_variation_total_witness :
    get_random_variation "Sitting" 2 ∈
      ["sitting", "seated", "sit", "sits", "sitting down", "sits down"] ∧
    get_random_variation "warp drive" 5 = "warp drive" :=
  ⟨(get_random_variation_total "Sitting" 2).1 _ (by decide),
   (get_random_variation_total "warp drive" 5).2 (by decide)⟩

/-- C9: the source table binds the key `standing` twice, to two different
lists; the effective dict keeps the later binding, so every lookup of the term
`standing` in any letter case draws from the later list. -/
theorem standing_last_definition_wins :
    (VARIATION_MAP.filter (fun e => e.1 == "standing")).map Prod.snd =
      [["standing", "stand", "stands", "standing up", "stands up"],
       ["standing", "stands", "upright", "on feet"]] ∧
    pyDictGet VARIATION_MAP "standing" =
      some ["standing", "stands", "upright", "on feet"] ∧
    ∀ (term : String), (pyLowerStr term) = "standing" → ∀ k,
      get_random_variation term k ∈ ["standing", "stands", "upright", "on feet"] := by
  refine ⟨by decide, by decide, ?_⟩
  intro term ht k
  have hsome : pyDictGet VARIATION_MAP "standing" =
      some ["standing", "stands", "upright", "on feet"] := by decide
  simp only [get_random_variation, ht, hsome, Option.getD_some]
  exact getD_mem _ _ term (Nat.mod_lt _ (by decide))

/-- Witness for C9: an upper-case lookup of `standing` lands in the later
variant list. -/
theorem standing_last_definition_wins_witness :
    get_random_variation "STANDING" 7 ∈
      ["standing", "stands", "upright", "on feet"] :=
  standing_last_definition_wins.2.2 "STANDING" (by decide) 7

/-- Characters removed by Python str.strip with no argument. -/
def pyWhitespace (c : Char) : Bool :=
  c == ' ' || c == '\t' || c == '\n' || c == '\r' || c == '\x0B' || c == '\x0C'

/-- Python str.strip on a character list: drop whitespace from both ends. -/
def pyStrip (s : List Char) : List Char :=
  ((s.dropWhile pyWhitespace).reverse.dropWhile pyWhitespace).reverse

/-- Python str.strip on a `String`. -/
def pyStripStr (s : String) : String :=
  String.mk (pyStrip s.data)

/-- Python str.join semantics. -/
def pyJoin (sep : String) : List String → String
  | [] => ""
  | [a] => a
  | a :: b :: rest => a ++ sep ++ pyJoin sep (b :: rest)

/-- QUALITY_TAGS of app.py. -/
def QUALITY_TAGS : List String :=
  ["masterpiece", "best quality", "highres", "absurdres", "ultra realistic",
   "sharp focus", "fine details", "highly detailed", "8k", "4k", "HDR",
   "realism", "realistic", "cinematic", "professional", "amazing quality"]

/-- POSE_SUGGESTIONS of app.py. -/
def POSE_SUGGESTIONS : List String :=
  ["arms above head", "hands on hips", "legs crossed", "one leg raised",
   "leaning forward", "leaning back", "twisting", "bending",
   "looking over shoulder", "head tilted", "eyes closed"]

/-- LIGHTING_SUGGESTIONS of app.py. -/
def LIGHTING_SUGGESTIONS : List String :=
  ["rim lighting", "backlit", "golden hour", "blue hour",
   "neon lights", "candlelight", "moonlight", "studio strobes"]

/-- ENVIRONMENT_SUGGESTIONS of app.py. -/
def ENVIRONMENT_SUGGESTIONS : List String :=
  ["luxury bedroom", "hotel room", "modern apartment", "garden terrace",
   "balcony", "secluded beach", "yacht deck", "candlelit room"]

/-- EMOTION_SUGGESTIONS of app.py. -/
def EMOTION_SUGGESTIONS : List String :=
  ["seductive", "confident", "playful", "mysterious", "romantic",
   "sensual", "adorable", "alluring", "provocative", "dreamy"]

/-- Value of one element of the JSON array parsed out of the external
service reply: either a plain string, or a dict whose optional field is the
value of its `prompt` key (`none` models a dict without that key). -/
inductive PyItem where
  | str : String → PyItem
  | dict : Option String → PyItem
deriving DecidableEq

/-- Parse result of the message content: a JSON list of items, or some
non-list JSON value. -/
inductive PyParsed where
  | list : List PyItem → PyParsed
  | other : PyParsed
deriving DecidableEq

/-- Outcome of the network interaction inside call_minimax_api: either some
exception was raised during the call (timeout, connection error, JSON-decode
error on the reply body), or a response arrived with an HTTP status, a flag
telling whether the body has a `choices` field, and the parse outcome of the
message content after code-fence stripping (`none` models a json.loads
failure, which raises and is caught by the surrounding handler). -/
inductive ApiOutcome where
  | exn : ApiOutcome
  | resp : Nat → Bool → Option PyParsed → ApiOutcome
deriving DecidableEq

/-- Python `p.get('prompt', p) if isinstance(p, dict) else p` applied to one
parsed item. -/
def itemPrompt : PyItem → PyItem
  | .str s => .str s
  | .dict (some s) => .str s
  | .dict none => .dict none

/-- call_minimax_api of app.py with the network modelled as an explicit
outcome: an empty API key returns None before any request; an exception
during the request or while decoding the reply is caught and yields None; a
non-200 status, a body without `choices`, and a non-list parse all fall
through to the final `return None`. -/
def call_minimax_api (prompt_text : String) (api_key : String)
    (num_variations : Nat) (outcome : ApiOutcome) : Option (List PyItem) :=
  if api_key = "" then none
  else
    match outcome with
    | .exn => none
    | .resp status hasChoices parsed =>
      if status = 200 then
        if hasChoices then
          match parsed with
          | none => none
          | some (.list items) => some (items.map itemPrompt)
          | some .other => none
        else none
      else none

/-- generate_ai_variations of app.py: build a seed prompt from the selected
elements (or the default seed when the joined selection strips to empty) and
delegate to call_minimax_api; an empty API key short-circuits to None. -/
def generate_ai_variations (seed_elements : List (String × List String))
    (api_key : String) (num_variations : Nat) (outcome : ApiOutcome) :
    Option (List PyItem) :=
  if api_key = "" then none
  else
    let seed_parts := seed_elements.foldl
      (fun acc ci => if ci.2.isEmpty then acc else acc ++ ci.2) []
    let seed_prompt := pyJoin ", " seed_parts
    let seed_prompt := if pyStripStr seed_prompt = "" then "beautiful woman" else seed_prompt
    call_minimax_api seed_prompt api_key num_variations outcome

/-- Random draws consumed by generate_fallback_variations: per iteration, the
index sequence used by random.sample over the first eight quality tags, and
the three random.choice indices. -/
structure Rand where
  qualityIdx : Nat → Nat → Nat
  poseIdx : Nat → Nat
  lightIdx : Nat → Nat
  envIdx : Nat → Nat

/-- Sample of `k` elements drawn from a pool, modelled by `k` injected choice
indices. -/
def sampleOf (pool : List String) (k : Nat) (idx : Nat → Nat) : List String :=
  (List.range k).map (fun j => choiceOf pool (idx j))

/-- generate_fallback_variations of app.py: for each requested variation,
join a random quality-tag sample, the selected elements, and one random pose,
lighting and environment suggestion. -/
def generate_fallback_variations (seed_elements : List (String × List String))
    (num_variations : Nat) (r : Rand) : List String :=
  (List.range num_variations).map (fun i =>
    let parts := sampleOf (QUALITY_TAGS.take 8) (min 4 QUALITY_TAGS.length) (r.qualityIdx i)
      ++ seed_elements.foldl (fun acc ci => if ci.2.isEmpty then acc else acc ++ ci.2) []
      ++ [choiceOf POSE_SUGGESTIONS (r.poseIdx i),
          choiceOf LIGHTING_SUGGESTIONS (r.lightIdx i),
          choiceOf ENVIRONMENT_SUGGESTIONS (r.envIdx i)]
    pyJoin ", " parts)

/-- Generate-button handler of app.py (lines 449 to 454): consult the AI path
only when the AI toggle is on and a key is present, and replace a None or
empty AI result with the pure fallback synthesis.  Fallback strings are
injected into the item type to mirror the untyped Python variable. -/
def generate_button_variations (use_ai : Bool) (api_key : String)
    (all_selections : List (String × List String)) (num_variations : Nat)
    (outcome : ApiOutcome) (r : Rand) : List PyItem :=
  if use_ai && !(api_key == "") then
    match generate_ai_variations all_selections api_key num_variations outcome with
    | some vs => if vs.isEmpty then
        (generate_fallback_variations all_selections num_variations r).map PyItem.str
      else vs
    | none => (generate_fallback_variations all_selections num_variations r).map PyItem.str
  else (generate_fallback_variations all_selections num_variations r).map PyItem.str

/-- Failure outcomes enumerated by the claim: missing API key, a non-200
status, message content that fails to parse as JSON, or an exception during
the call. -/
def isApiFailure (api_key : String) (o : ApiOutcome) : Bool :=
  api_key == "" ||
  match o with
  | .exn => true
  | .resp status _ parsed => !(status == 200) || parsed.isNone

/-- C8: on every enumerated external-service failure, call_minimax_api
returns None (it never propagates an exception, being a total function), and
the generate flow produces exactly the pure fallback synthesis, a list of
`num_variations` prompt strings. -/
theorem api_failure_falls_back (prompt_text api_key : String) (o : ApiOutcome)
    (use_ai : Bool) (sels : List (String × List String)) (n : Nat) (r : Rand)
    (h : isApiFailure api_key o = true) :
    call_minimax_api prompt_text api_key n o = none ∧
    generate_button_variations use_ai api_key sels n o r =
      (generate_fallback_variations sels n r).map PyItem.str ∧
    (generate_button_variations use_ai api_key sels n o r).length = n := by
  have hlen : (generate_fallback_variations sels n r).length = n := by
    simp [generate_fallback_variations]
  have hcall : call_minimax_api prompt_text api_key n o = none := by
    by_cases hkey : api_key = ""
    · simp [call_minimax_api, hkey]
    · simp only [isApiFailure, Bool.or_eq_true, beq_iff_eq] at h
      rcases h with h | h
      · exact absurd h hkey
      · cases o with
        | exn => simp [call_minimax_api, hkey]
        | resp status hasChoices parsed =>
          simp only [Bool.or_eq_true, Bool.not_eq_eq_eq_not, Bool.not_true,
            beq_eq_false_iff_ne, ne_eq, Option.isNone_iff_eq_none] at h
          rcases h with h | h
          · simp [call_minimax_api, hkey, h]
          · subst h
            by_cases hst : status = 200 <;>
              simp [call_minimax_api, hkey, hst]
  have hai : ∀ pt, call_minimax_api pt api_key n o = none := by
    intro pt
    by_cases hkey : api_key = ""
    · simp [call_minimax_api, hkey]
    · revert hcall
      simp only [call_minimax_api, if_neg hkey]
      exact fun x => x
  refine ⟨hcall, ?_, ?_⟩
  · by_cases hkey : api_key = ""
    · simp [generate_button_variations, hkey]
    · simp [generate_button_variations, generate_ai_variations, hkey, hai]
  · by_cases hkey : api_key = ""
    · simpa [generate_button_variations, hkey] using hlen
    · simpa [generate_button_variations, generate_ai_variations, hkey, hai] using hlen

/-- Witness for C8: a non-200 response with a present key falls back to three
locally synthesized prompt strings. -/
theorem api_failure_falls_back_witness :
    call_minimax_api "seed" "k" 3 (.resp 500 true (some .other)) = none ∧
    generate_button_variations true "k" [] 3 (.resp 500 true (some .other))
        ⟨fun _ _ => 0, fun _ => 0, fun _ => 0, fun _ => 0⟩ =
      (generate_fallback_variations [] 3
        ⟨fun _ _ => 0, fun _ => 0, fun _ => 0, fun _ => 0⟩).map PyItem.str ∧
    (generate_button_variations true "k" [] 3 (.resp 500 true (some .other))
        ⟨fun _ _ => 0, fun _ => 0, fun _ => 0, fun _ => 0⟩).length = 3 :=
  api_failure_falls_back "seed" "k" (.resp 500 true (some .other)) true [] 3
    ⟨fun _ _ => 0, fun _ => 0, fun _ => 0, fun _ => 0⟩ (by decide)

/-- Expansion object produced by the fallback expansion generator. -/
structure Expansion where
  prompt : String
  description : String
deriving DecidableEq

/-- Random draws consumed by generate_fallback_expansion, one per
random.choice call in source order. -/
structure ExpRand where
  pose1 : Nat
  light1 : Nat
  env1 : Nat
  emo1 : Nat
  pose2 : Nat
  emo2 : Nat
  light2 : Nat
  env2 : Nat

/-- generate_fallback_expansion of app.py: always build the same five
expansion objects from the seed prompt, then return the first
`num_variations` of them. -/
def generate_fallback_expansion (seed_prompt : String) (num_variations : Nat)
    (r : ExpRand) : List Expansion :=
  let expansions : List Expansion :=
    [⟨seed_prompt ++ ", " ++ choiceOf POSE_SUGGESTIONS r.pose1, "New pose added"⟩,
     ⟨seed_prompt ++ ", " ++ choiceOf LIGHTING_SUGGESTIONS r.light1, "New lighting"⟩,
     ⟨seed_prompt ++ ", in " ++ choiceOf ENVIRONMENT_SUGGESTIONS r.env1, "New setting"⟩,
     ⟨seed_prompt ++ ", " ++ choiceOf EMOTION_SUGGESTIONS r.emo1, "New mood"⟩,
     ⟨pyJoin ", " [seed_prompt,
        choiceOf POSE_SUGGESTIONS r.pose2,
        choiceOf EMOTION_SUGGESTIONS r.emo2,
        choiceOf LIGHTING_SUGGESTIONS r.light2,
        "in " ++ choiceOf ENVIRONMENT_SUGGESTIONS r.env2], "Creative mix"⟩]
  expansions.take num_variations

/-- C10: the fallback expansion generator returns exactly `min n 5` objects
for a requested count of `n`, and every returned object has a prompt that
begins with the seed prompt and a non-empty description. -/
theorem fallback_expansion_shape (seed : String) (n : Nat) (r : ExpRand) :
    (generate_fallback_expansion seed n r).length = min n 5 ∧
    ∀ e ∈ generate_fallback_expansion seed n r,
      (∃ t, e.prompt = seed ++ t) ∧ e.description ≠ "" := by
  constructor
  · simp [generate_fallback_expansion]
  · intro e he
    have he5 := List.mem_of_mem_take he
    simp only [generate_fallback_expansion, List.mem_cons, List.not_mem_nil,
      or_false] at he5
    rcases he5 with h | h | h | h | h <;> subst h <;>
      exact ⟨⟨_, String.append_assoc _ _ _⟩, by simp⟩

/-- Witness for C10: a request for seven expansions from a concrete seed is
capped at the five built objects, each prefixed by the seed. -/
theorem fallback_expansion_shape_witness :
    (generate_fallback_expansion "1girl" 7 ⟨0, 1, 2, 3, 4, 5, 6, 7⟩).length = min 7 5 ∧
    ∀ e ∈ generate_fallback_expansion "1girl" 7 ⟨0, 1, 2, 3, 4, 5, 6, 7⟩,
      (∃ t, e.prompt = "1girl" ++ t) ∧ e.description ≠ "" :=
  fallback_expansion_shape "1girl" 7 ⟨0, 1, 2, 3, 4, 5, 6, 7⟩

/-- Name field of one LoRA reference: the record's `lora.get('name',
'Unknown')`, with `none` for a missing field. -/
def loraNames (loras : List (Option String)) : List String :=
  loras.filterMap (fun n₀ =>
    let name := n₀.getD "Unknown"
    if name ≠ "" ∧ name ≠ "Unknown" then some name else none)

/-- Python Counter increment: bump the count of an existing key in place,
else append the key with count one (dict insertion order). -/
def counterAdd {α : Type} [BEq α] : List (α × Nat) → α → List (α × Nat)
  | [], k => [(k, 1)]
  | (k₂, n) :: rest, k =>
    if k₂ == k then (k₂, n + 1) :: rest else (k₂, n) :: counterAdd rest k

/-- Lexicographic code-point comparison of Python strings. -/
def strLeData : List Char → List Char → Bool
  | [], _ => true
  | _ :: _, [] => false
  | a :: as, b :: bs =>
    if a.toNat < b.toNat then true
    else if b.toNat < a.toNat then false
    else strLeData as bs

/-- Stable insertion into an ascending list, used to model Python sorted. -/
def insertAsc (a : String) : List String → List String
  | [] => [a]
  | b :: bs => if strLeData a.data b.data then a :: b :: bs else b :: insertAsc a bs

/-- Python sorted on a list of strings. -/
def pySorted (l : List String) : List String :=
  l.foldr insertAsc []

/-- Stable insertion by count descending: an element goes before the first
element whose count is not larger, so elements seen earlier precede equal
counts. -/
def insDesc {α : Type} (e : α × Nat) : List (α × Nat) → List (α × Nat)
  | [] => [e]
  | f :: fs => if f.2 ≤ e.2 then e :: f :: fs else f :: insDesc e fs

/-- Counter.most_common n: stable sort of the counter items by count
descending (ties keep first-insertion order), truncated to n. -/
def mostCommon {α : Type} (c : List (α × Nat)) (n : Nat) : List (α × Nat) :=
  (c.foldr insDesc []).take n

/-- Combination counter of analyze_loras in analyze_data.py: a record whose
filtered LoRA name list has more than one entry registers the Python-sorted
tuple of that list (multiplicities kept) as one occurrence. -/
def analyze_loras_combinations (records : List (List (Option String))) :
    List (List String × Nat) :=
  records.foldl (fun combinations record =>
    let lora_names := loraNames record
    if lora_names.length > 1 then counterAdd combinations (pySorted lora_names)
    else combinations) []

/-- top_combinations field of the analyze_loras result. -/
def analyze_loras_top_combinations (records : List (List (Option String))) :
    List (List String × Nat) :=
  mostCommon (analyze_loras_combinations records) 20

/-- Counterexample to C5 as stated: a record listing the same LoRA name twice
has only one distinct name, yet the aggregator registers the combination
(A, A) for it, because the code tests `len(lora_names) > 1` on the list with
multiplicities, not on distinct names. -/
theorem lora_combo_distinct_counterexample :
    (loraNames [some "A", some "A"]).dedup.length = 1 ∧
    analyze_loras_combinations [[some "A", some "A"]] = [(["A", "A"], 1)] := by
  decide

/-- C5 (amended): a combination is registered exactly for records whose
filtered LoRA name list has at least two entries counting multiplicity, as
the sorted tuple of that list; ranking is by occurrence count descending with
ties in first-seen order, so the record sets (A,B), (A,B), (A,C) rank (A,B)
with count 2 above (A,C) with count 1. -/
theorem lora_combination_registration (record : List (Option String)) :
    analyze_loras_combinations [record] =
      (if (loraNames record).length > 1 then [(pySorted (loraNames record), 1)]
       else []) ∧
    analyze_loras_top_combinations
        [[some "A", some "B"], [some "A", some "B"], [some "A", some "C"]] =
      [(["A", "B"], 2), (["A", "C"], 1)] := by
  constructor
  · simp only [analyze_loras_combinations, List.foldl_cons, List.foldl_nil]
    split <;> rfl
  · decide

/-- Technical-settings fields of one record: sampler name, step count and
guidance scale, each possibly absent. -/
structure TechRecord where
  sampler : Option String
  steps : Option Int
  cfgScale : Option ℚ
deriving DecidableEq

/-- Result shape of analyze_technical_settings. -/
structure TechStats where
  samplers : List (String × Nat)
  steps_avg : ℚ
  steps_range : Int × Int
  cfg_avg : ℚ
  cfg_range : ℚ × ℚ
deriving DecidableEq

/-- Python min over a possibly-empty list with the guarding default. -/
def pyMin {α : Type} [Min α] (l : List α) (d : α) : α :=
  match l with
  | [] => d
  | a :: as => as.foldl Min.min a

/-- Python max over a possibly-empty list with the guarding default. -/
def pyMax {α : Type} [Max α] (l : List α) (d : α) : α :=
  match l with
  | [] => d
  | a :: as => as.foldl Max.max a

/-- analyze_technical_settings of analyze_data.py: count truthy sampler
names, collect truthy (non-zero) step counts and guidance scales, and reduce
them to means and ranges, with zero results on empty collections. -/
def analyze_technical_settings (images : List TechRecord) : TechStats :=
  let samplers := images.foldl (fun c img =>
    match img.sampler with
    | some s => if s ≠ "" then counterAdd c s else c
    | none => c) []
  let steps : List Int := images.filterMap (fun img =>
    match img.steps with
    | some n => if n ≠ 0 then some n else none
    | none => none)
  let cfg_scales : List ℚ := images.filterMap (fun img =>
    match img.cfgScale with
    | some q => if q ≠ 0 then some q else none
    | none => none)
  { samplers := mostCommon samplers 20
    steps_avg := if steps.isEmpty then 0 else (steps.sum : ℚ) / (steps.length : ℚ)
    steps_range := (pyMin steps 0, pyMax steps 0)
    cfg_avg := if cfg_scales.isEmpty then 0 else cfg_scales.sum / (cfg_scales.length : ℚ)
    cfg_range := (pyMin cfg_scales 0, pyMax cfg_scales 0) }

/-- C7: when every record has absent-or-zero steps and absent-or-zero
guidance scale, the aggregator returns zero means and (0, 0) ranges instead
of raising; zero values are excluded from all means, minima and maxima. -/
theorem technical_settings_absent_or_zero (images : List TechRecord)
    (h : ∀ img ∈ images,
      (img.steps = none ∨ img.steps = some 0) ∧
      (img.cfgScale = none ∨ img.cfgScale = some 0)) :
    (analyze_technical_settings images).steps_avg = 0 ∧
    (analyze_technical_settings images).steps_range = (0, 0) ∧
    (analyze_technical_settings images).cfg_avg = 0 ∧
    (analyze_technical_settings images).cfg_range = (0, 0) := by
  have hsteps : images.filterMap (fun img =>
      match img.steps with
      | some n => if n ≠ 0 then some n else none
      | none => none) = ([] : List Int) := by
    rw [List.filterMap_eq_nil_iff]
    intro img him
    rcases (h img him).1 with h₁ | h₁ <;> simp [h₁]
  have hcfg : images.filterMap (fun img =>
      match img.cfgScale with
      | some q => if q ≠ 0 then some q else none
      | none => none) = ([] : List ℚ) := by
    rw [List.filterMap_eq_nil_iff]
    intro img him
    rcases (h img him).2 with h₂ | h₂ <;> simp [h₂]
  simp only [analyze_technical_settings, hsteps, hcfg]
  refine ⟨rfl, rfl, rfl, rfl⟩

/-- Witness for C7: a single record carrying a sampler but a missing step
count and a zero guidance scale yields all-zero statistics. -/
theorem technical_settings_absent_or_zero_witness :
    (analyze_technical_settings [⟨some "Euler a", none, some 0⟩]).steps_avg = 0 ∧
    (analyze_technical_settings [⟨some "Euler a", none, some 0⟩]).steps_range = (0, 0) ∧
    (analyze_technical_settings [⟨some "Euler a", none, some 0⟩]).cfg_avg = 0 ∧
    (analyze_technical_settings [⟨some "Euler a", none, some 0⟩]).cfg_range = (0, 0) :=
  technical_settings_absent_or_zero [⟨some "Euler a", none, some 0⟩] (by decide)

/-- Character-list view of a Python string, used by the pattern scanner. -/
abbrev Str := List Char

/-- Conversion from a Lean string literal to the scanner representation. -/
def S (s : String) : Str := s.toList

/-- Word character in the sense of the regex class backslash-w, restricted to
the ASCII range used by the taxonomy and corpus. -/
def isWordChar (c : Char) : Bool := c.isAlphanum || c == '_'

/-- Python str.lower on the scanner representation. -/
def pyLower (s : Str) : Str := s.map Char.toLower

/-- Alternative of one taxonomy regex.  Every pattern of the repository is a
word-bounded alternation whose branches are either a literal phrase or a
literal with one parenthesised captured alternation inside (the branches
`missing (limbs|fingers|toes|arms|legs)`, `extra (limbs|fingers|toes)`,
`fused (fingers|limbs)` and `(ass|breast|face|body) focus`); the optional
letters `futana?ri` and `stands?ing` are expanded into two branches in the
backtracking order of the regex engine. -/
inductive Alt where
  | lit : Str → Alt
  | grp : Str → List Str → Str → Alt

/-- Literal alternative written from a string literal. -/
def lit (s : String) : Alt := .lit (S s)

/-- Group alternative: literal part, captured inner alternation, literal
tail. -/
def grp (pre : String) (inner : List String) (suf : String) : Alt :=
  .grp (S pre) (inner.map S) (S suf)

/-- Consume an expected literal from the front of the input, returning the
rest on success. -/
def dropLit : Str → Str → Option Str
  | [], s => some s
  | _ :: _, [] => none
  | a :: as, b :: bs => if a = b then dropLit as bs else none

/-- Trailing word-boundary test: satisfied at end of input or before a
non-word character (every taxonomy branch ends in a word character). -/
def boundaryAfter : Str → Bool
  | [] => true
  | c :: _ => !(isWordChar c)

/-- Backtracking over the inner alternation of a group branch: the first
inner option whose literal, followed by the literal tail and a word boundary,
fits the input yields the whole capture and the inner capture. -/
def tryInner (s₁ : Str) (pre suf : Str) : List Str → Option (Str × Str × Str)
  | [] => none
  | o :: os =>
    match dropLit o s₁ with
    | some s₂ =>
      match dropLit suf s₂ with
      | some rest =>
        if boundaryAfter rest then some (pre ++ o ++ suf, o, rest)
        else tryInner s₁ pre suf os
      | none => tryInner s₁ pre suf os
    | none => tryInner s₁ pre suf os

/-- Try one alternative at the current position; on success return the whole
capture (group 1), the inner capture (empty when the branch has no inner
group) and the rest of the input. -/
def tryAlt (s : Str) : Alt → Option (Str × Str × Str)
  | .lit l =>
    match dropLit l s with
    | some rest => if boundaryAfter rest then some (l, [], rest) else none
    | none => none
  | .grp pre inner suf =>
    match dropLit pre s with
    | some s₁ => tryInner s₁ pre suf inner
    | none => none

/-- First alternative in pattern order that matches at the current
position. -/
def tryAlts (s : Str) : List Alt → Option (Str × Str × Str)
  | [] => none
  | a :: as =>
    match tryAlt s a with
    | some r => some r
    | none => tryAlts s as

/-- Scanner core for re.findall: walk the input left to right, attempt the
alternation only at positions preceded by a non-word character (the leading
word boundary, since every branch begins with a word character), emit the
captures of the leftmost matches and continue after each match (every branch
ends with a word character, so the position after a match counts as preceded
by a word character).  The fuel is the input length; each step consumes at
least one character. -/
def scanAux (alts : List Alt) : Nat → Str → Bool → List (Str × Str)
  | 0, _, _ => []
  | _ + 1, [], _ => []
  | fuel + 1, c :: rest, prevWord =>
    if prevWord then scanAux alts fuel rest (isWordChar c)
    else
      match tryAlts (c :: rest) alts with
      | some (whole, inner, rest₂) => (whole, inner) :: scanAux alts fuel rest₂ true
      | none => scanAux alts fuel rest (isWordChar c)

/-- re.findall of one taxonomy pattern over the (already lowercased) text. -/
def findall (alts : List Alt) (s : Str) : List (Str × Str) :=
  scanAux alts s.length s false

/-- Whether the compiled pattern has more than one capture group, in which
case re.findall returns tuples instead of plain strings. -/
def patTupleMode (alts : List Alt) : Bool :=
  alts.any fun a => match a with | .grp _ _ _ => true | .lit _ => false

/-- Stripped match kept only when non-empty, mirroring
`m.strip() for m in match if m.strip()`. -/
def stripNonempty (m : Str) : Option Str :=
  let t := pyStrip m
  if t = [] then none else some t

/-- Per-match terms: in tuple mode every non-empty stripped capture of the
tuple is an independent term; in string mode the single match is stripped and
appended unconditionally. -/
def matchTerms (tupleMode : Bool) (m : Str × Str) : List Str :=
  if tupleMode then [m.1, m.2].filterMap stripNonempty
  else [pyStrip m.1]

/-- Matches of one category: every pattern in order, every findall result in
order, fanned out to terms. -/
def categoryTermsFor (patterns : List (List Alt)) (lower : Str) : List Str :=
  patterns.foldl (fun ms pattern =>
    ms ++ (findall pattern lower).flatMap (matchTerms (patTupleMode pattern))) []

/-- Deduplicated cleaned matches of one category, mirroring
`list(set([m.strip() for m in matches if m.strip() and isinstance(m, str)]))`. -/
def dedupSet (l : List Str) : List Str :=
  (l.filterMap stripNonempty).dedup

/-- CATEGORY_PATTERNS of analyze_data.py, one entry per category in source
order, each regex transcribed branch by branch (lowercased, as the matching
is case-insensitive over the lowercased prompt). -/
def CATEGORY_PATTERNS : List (Str × List (List Alt)) :=
  [ (S "subject",
     [[lit "1girl", lit "1boy", lit "2girls", lit "2boys", lit "female",
       lit "futanari", lit "futanri", lit "woman", lit "man", lit "girl", lit "boy"],
      [lit "1femboy", lit "solo", lit "femboy"]]),
    (S "pose",
     [[lit "sitting", lit "seated", lit "sit", lit "standsing", lit "standing",
       lit "stand", lit "lying", lit "lay", lit "pinup pose", lit "kneeling",
       lit "kneel", lit "squatting", lit "squat", lit "legs apart",
       lit "legs spread", lit "on back", lit "on stomach", lit "bent over",
       lit "from behind", lit "from above", lit "from front", lit "profile",
       lit "side view", lit "front view"]]),
    (S "environment",
     [[lit "beach", lit "tropical", lit "outdoor", lit "indoor", lit "studio",
       lit "room", lit "forest", lit "desert", lit "mountain", lit "city",
       lit "night", lit "day", lit "sunset", lit "sunrise", lit "dawn",
       lit "dusk", lit "sky", lit "clouds", lit "grass", lit "palm",
       lit "resort", lit "ocean", lit "sea", lit "lake", lit "pool", lit "bed",
       lit "chair", lit "couch", lit "wall", lit "floor", lit "background"]]),
    (S "body_features",
     [[lit "large breasts", lit "big breasts", lit "huge breasts",
       lit "massive breasts", lit "small breasts", lit "flat chest",
       lit "athletic", lit "thin", lit "curvy", lit "curvaceous",
       lit "wide hips", lit "tiny waist", lit "petite", lit "slim", lit "fit",
       lit "fitness", lit "muscular", lit "toned", lit "plump", lit "chubby",
       lit "hourglass", lit "big ass", lit "flat ass", lit "small breasts"]]),
    (S "hair",
     [[lit "long hair", lit "short hair", lit "medium hair", lit "blonde",
       lit "brunette", lit "red hair", lit "black hair", lit "blue hair",
       lit "pink hair", lit "green hair", lit "white hair", lit "grey hair",
       lit "curly hair", lit "wavy hair", lit "straight hair", lit "bald",
       lit "shaved", lit "ponytail", lit "braids", lit "pixie cut",
       lit "long wavy", lit "short pixie"]]),
    (S "clothing",
     [[lit "bikini", lit "swimsuit", lit "naked", lit "nude", lit "topless",
       lit "clothed", lit "jeans", lit "shirt", lit "dress", lit "skirt",
       lit "blouse", lit "pants", lit "shorts", lit "underwear", lit "bra",
       lit "thong", lit "lingerie", lit "bodysuit", lit "costume",
       lit "uniform", lit "suit", lit "tie", lit "hat", lit "glasses",
       lit "jewelry", lit "necklace", lit "earrings", lit "bracelet",
       lit "ring", lit "tiara", lit "crown", lit "wings", lit "halo",
       lit "aura"]]),
    (S "lighting",
     [[lit "sunset", lit "sunrise", lit "dramatic lighting",
       lit "studio lighting", lit "soft lighting", lit "natural lighting",
       lit "neon", lit "backlit", lit "rim light", lit "godrays", lit "shadow",
       lit "high contrast", lit "low key", lit "high key", lit "golden hour",
       lit "blue hour", lit "night", lit "dark", lit "bright", lit "dim",
       lit "spotlight"]]),
    (S "art_style",
     [[lit "realistic photograph", lit "photorealistic", lit "realistic photo",
       lit "photograph", lit "photo of", lit "anime", lit "manga",
       lit "illustration", lit "digital painting", lit "oil painting",
       lit "watercolor", lit "3d render", lit "cg", lit "cartoon", lit "comic",
       lit "sketch", lit "draft"]]),
    (S "quality",
     [[lit "8k", lit "4k", lit "high resolution", lit "highres",
       lit "absurdres", lit "masterpiece", lit "best quality",
       lit "amazing quality", lit "ultra realistic", lit "sharp focus",
       lit "fine details", lit "detailed", lit "hdr", lit "realism",
       lit "realistic", lit "sharp", lit "clear", lit "crisp",
       lit "ultra detailed"]]),
    (S "camera",
     [[lit "75mm", lit "85mm", lit "50mm", lit "35mm", lit "wide angle",
       lit "telephoto", lit "macro", lit "depth of field", lit "dof",
       lit "bokeh", lit "sharp focus", lit "soft focus", lit "blurry",
       lit "close-up", lit "wide shot", lit "full body", lit "portrait",
       lit "cowboy shot", lit "headshot", lit "medium shot", lit "long shot",
       lit "technicolor", lit "panavision", lit "cinemascope", lit "kodak",
       lit "film"]]),
    (S "composition",
     [[lit "close-up", lit "closeup", lit "medium shot", lit "wide shot",
       lit "full body", lit "headshot", lit "cowboy shot", lit "portrait",
       lit "bust", lit "waist up", lit "thigh up", lit "full shot",
       lit "aerial", lit "worm",
       grp "" ["ass", "breast", "face", "body"] " focus",
       lit "solo focus"]]),
    (S "emotion",
     [[lit "smiling", lit "smile", lit "laughing", lit "laughing",
       lit "crying", lit "sad", lit "angry", lit "happy", lit "sexy",
       lit "seductive", lit "confident", lit "shy", lit "nervous",
       lit "relaxed", lit "calm", lit "angry", lit "mad", lit "pleased",
       lit "blushing", lit "blush", lit "embarrassed", lit "fear",
       lit "surprised", lit "worried", lit "confused"]]),
    (S "skin_features",
     [[lit "sweaty", lit "wet", lit "shiny", lit "oily", lit "dry", lit "pale",
       lit "fair", lit "dark", lit "tan", lit "bronzed", lit "glowing",
       lit "radiant", lit "matte", lit "smooth", lit "rough", lit "soft",
       lit "velvety", lit "clear", lit "flawless", lit "perfect skin",
       lit "skin texture"]]),
    (S "physical_details",
     [[lit "abs", lit "muscles", lit "muscular", lit "veins", lit "tattoos",
       lit "tattoo", lit "piercings", lit "piercing", lit "scars", lit "marks",
       lit "freckles", lit "moles", lit "birthmark", lit "dimples",
       lit "sweat", lit "sweaty", lit "breathing", lit "veiny", lit "hairy",
       lit "hairless", lit "smooth skin"]]),
    (S "special_effects",
     [[lit "godrays", lit "particles", lit "sparkles", lit "glitter",
       lit "smoke", lit "fog", lit "mist", lit "fire", lit "flames",
       lit "water", lit "rain", lit "snow", lit "wind", lit "leaves",
       lit "petals", lit "magic", lit "sparkle", lit "glow", lit "shimmer"]]) ]

/-- NEGATIVE_CATEGORIES of analyze_data.py, transcribed the same way. -/
def NEGATIVE_CATEGORIES : List (Str × List (List Alt)) :=
  [ (S "quality",
     [[lit "worst quality", lit "low quality", lit "poor quality",
       lit "bad quality", lit "lowres", lit "blur", lit "blurry",
       lit "blurred", lit "pixelated", lit "upscaled",
       lit "compression artifacts", lit "jpeg artifacts"]]),
    (S "anatomy",
     [[lit "bad anatomy", lit "wrong anatomy", lit "disfigured",
       lit "deformed", lit "mutated", lit "ugly",
       grp "missing " ["limbs", "fingers", "toes", "arms", "legs"] "",
       grp "extra " ["limbs", "fingers", "toes"] "",
       grp "fused " ["fingers", "limbs"] "",
       lit "too many fingers", lit "fewer fingers", lit "bad hands",
       lit "bad feet", lit "bad face", lit "ugly face", lit "weird face"]]),
    (S "style",
     [[lit "3d", lit "cartoon", lit "anime", lit "manga", lit "comic",
       lit "sketch", lit "drawing", lit "painting", lit "illustrated",
       lit "clipart", lit "vector", lit "watermark", lit "signature",
       lit "text", lit "logo"]]),
    (S "unwanted_features",
     [[lit "fat", lit "chubby", lit "overweight", lit "thin", lit "skinny",
       lit "malnourished", lit "skeletal", lit "child", lit "kid", lit "teen",
       lit "underage", lit "adult", lit "mature"]]),
    (S "censoring",
     [[lit "censor", lit "censored", lit "bar censor", lit "mosaic",
       lit "blur", lit "covered", lit "hidden"]]) ]

/-- categorize_prompt of analyze_data.py: falsy input yields the empty
mapping; otherwise every category of CATEGORY_PATTERNS whose cleaned
deduplicated match list is non-empty is appended in taxonomy order. -/
def categorize_prompt (prompt : Option Str) : List (Str × List Str) :=
  match prompt with
  | none => []
  | some s =>
    if s = [] then []
    else
      CATEGORY_PATTERNS.foldl (fun categories cp =>
        if categoryTermsFor cp.2 (pyLower s) = [] then categories
        else if dedupSet (categoryTermsFor cp.2 (pyLower s)) = [] then categories
        else categories ++ [(cp.1, dedupSet (categoryTermsFor cp.2 (pyLower s)))]) []

/-- analyze_negative_prompt of analyze_data.py: the same loop body as
categorize_prompt, written out over NEGATIVE_CATEGORIES, as the Python source
duplicates it. -/
def analyze_negative_prompt (negative : Option Str) : List (Str × List Str) :=
  match negative with
  | none => []
  | some s =>
    if s = [] then []
    else
      NEGATIVE_CATEGORIES.foldl (fun exclusions cp =>
        if categoryTermsFor cp.2 (pyLower s) = [] then exclusions
        else if dedupSet (categoryTermsFor cp.2 (pyLower s)) = [] then exclusions
        else exclusions ++ [(cp.1, dedupSet (categoryTermsFor cp.2 (pyLower s)))]) []

/-- Generic categorizer parameterized by the taxonomy, the algorithm the
specification describes once for both prompt kinds. -/
def categorizeByTaxonomy (tax : List (Str × List (List Alt)))
    (text : Option Str) : List (Str × List Str) :=
  match text with
  | none => []
  | some s =>
    if s = [] then []
    else
      tax.foldl (fun categories cp =>
        if categoryTermsFor cp.2 (pyLower s) = [] then categories
        else if dedupSet (categoryTermsFor cp.2 (pyLower s)) = [] then categories
        else categories ++ [(cp.1, dedupSet (categoryTermsFor cp.2 (pyLower s)))]) []

/-- C3: both categorizers compute the generic taxonomy-parameterized
algorithm; in particular the negative-prompt categorizer is the positive one
with the taxonomy replaced by NEGATIVE_CATEGORIES. -/
theorem categorizers_are_generic (text : Option Str) :
    analyze_negative_prompt text = categorizeByTaxonomy NEGATIVE_CATEGORIES text ∧
    categorize_prompt text = categorizeByTaxonomy CATEGORY_PATTERNS text :=
  ⟨rfl, rfl⟩

/-- Helper: dropping a prefix by a predicate twice equals dropping it once. -/
theorem dropWhile_same {α : Type} (p : α → Bool) (l : List α) :
    (l.dropWhile p).dropWhile p = l.dropWhile p := by
  induction l with
  | nil => rfl
  | cons a t ih =>
    by_cases h : p a
    · simp [List.dropWhile_cons, h, ih]
    · simp [List.dropWhile_cons, h]

/-- Helper: the head surviving a dropWhile falsifies the predicate. -/
theorem head_dropWhile_false {α : Type} (p : α → Bool) (l : List α) (x : α)
    (xs : List α) (h : l.dropWhile p = x :: xs) : p x = false := by
  induction l with
  | nil => simp at h
  | cons a t ih =>
    rw [List.dropWhile_cons] at h
    by_cases hpa : p a
    · rw [if_pos hpa] at h
      exact ih h
    · rw [if_neg hpa] at h
      cases h
      simpa using hpa

/-- Helper: dropWhile keeps the last element when its result is non-empty. -/
theorem getLast?_dropWhile {α : Type} (p : α → Bool) (l : List α) :
    l.dropWhile p = [] ∨ (l.dropWhile p).getLast? = l.getLast? := by
  induction l with
  | nil => exact Or.inl rfl
  | cons a t ih =>
    rw [List.dropWhile_cons]
    by_cases hpa : p a
    · rw [if_pos hpa]
      by_cases hd : t.dropWhile p = []
      · exact Or.inl hd
      · right
        rcases ih with h | h
        · exact absurd h hd
        · rw [h]
          cases t with
          | nil => exact absurd rfl hd
          | cons b ts => rw [List.getLast?_cons_cons]
    · rw [if_neg hpa]
      exact Or.inr rfl

/-- Helper: a list whose head falsifies the predicate survives dropWhile. -/
theorem dropWhile_eq_self_of_head {α : Type} (p : α → Bool) (l : List α)
    (h : ∀ x xs, l = x :: xs → p x = false) : l.dropWhile p = l := by
  cases l with
  | nil => rfl
  | cons a t =>
    rw [List.dropWhile_cons, h a t rfl]
    simp

/-- Python str.strip is idempotent. -/
theorem pyStrip_idem (s : Str) : pyStrip (pyStrip s) = pyStrip s := by
  unfold pyStrip
  set p := pyWhitespace with hp
  set A := s.dropWhile p with hA
  set B := A.reverse.dropWhile p with hB
  have h1 : B.reverse.dropWhile p = B.reverse := by
    apply dropWhile_eq_self_of_head
    intro x xs hx
    have hBne : B ≠ [] := by
      intro hB0
      rw [hB0] at hx
      simp at hx
    have hlast : B.getLast? = A.reverse.getLast? := by
      rcases getLast?_dropWhile p A.reverse with h | h
      · exact absurd (hB.trans h) hBne
      · exact (congrArg List.getLast? hB).trans h
    have h2 : B.getLast? = some x := by
      rw [← List.head?_reverse, hx]
      rfl
    have h4 : A.head? = some x := by
      rw [← List.getLast?_reverse, ← hlast]
      exact h2
    cases hA2 : A with
    | nil =>
      rw [hA2] at h4
      simp at h4
    | cons y ys =>
      rw [hA2] at h4
      simp only [List.head?_cons, Option.some.injEq] at h4
      subst h4
      exact head_dropWhile_false p s y ys (hA.symm.trans hA2)
  rw [h1, List.reverse_reverse, hB, dropWhile_same]

/-- Helper: a term surviving the clean-and-dedup stage is non-empty and
already stripped. -/
theorem mem_dedupSet {t : Str} {l : List Str} (h : t ∈ dedupSet l) :
    t ≠ [] ∧ pyStrip t = t := by
  unfold dedupSet at h
  rw [List.mem_dedup] at h
  obtain ⟨m, _, hsome⟩ := List.mem_filterMap.mp h
  simp only [stripNonempty] at hsome
  by_cases h0 : pyStrip m = []
  · rw [if_pos h0] at hsome
    cases hsome
  · rw [if_neg h0] at hsome
    cases hsome
    exact ⟨h0, pyStrip_idem m⟩

/-- Helper: membership in the categorizer fold comes from the accumulator or
from one taxonomy entry with a non-empty cleaned match list. -/
theorem mem_categorize_foldl (tax : List (Str × List (List Alt))) (lower : Str)
    (acc : List (Str × List Str)) (kv : Str × List Str)
    (h : kv ∈ tax.foldl (fun categories cp =>
      if categoryTermsFor cp.2 lower = [] then categories
      else if dedupSet (categoryTermsFor cp.2 lower) = [] then categories
      else categories ++ [(cp.1, dedupSet (categoryTermsFor cp.2 lower))]) acc) :
    kv ∈ acc ∨ ∃ cp ∈ tax, kv.1 = cp.1 ∧
      kv.2 = dedupSet (categoryTermsFor cp.2 lower) ∧ kv.2 ≠ [] := by
  induction tax generalizing acc with
  | nil => exact Or.inl h
  | cons cp tax ih =>
    rw [List.foldl_cons] at h
    rcases ih _ h with h₁ | ⟨cp₂, hmem, he⟩
    · by_cases hm1 : categoryTermsFor cp.2 lower = []
      · rw [if_pos hm1] at h₁
        exact Or.inl h₁
      · rw [if_neg hm1] at h₁
        by_cases hm2 : dedupSet (categoryTermsFor cp.2 lower) = []
        · rw [if_pos hm2] at h₁
          exact Or.inl h₁
        · rw [if_neg hm2] at h₁
          rcases List.mem_append.mp h₁ with h₂ | h₂
          · exact Or.inl h₂
          · right
            refine ⟨cp, List.mem_cons_self _ _, ?_⟩
            rcases List.mem_singleton.mp h₂ with h₃
            rw [h₃]
            exact ⟨rfl, rfl, hm2⟩
    · exact Or.inr ⟨cp₂, List.mem_cons_of_mem _ hmem, he⟩

/-- C6: categorizer invariants.  For every prompt (present or absent) the
result never maps a category to an empty term set, every category key is
drawn from the taxonomy, every term is non-empty after trimming, and the
empty or absent prompt yields the empty mapping. -/
theorem categorize_prompt_invariants (p : Option Str) :
    (∀ kv ∈ categorize_prompt p,
        kv.1 ∈ CATEGORY_PATTERNS.map Prod.fst ∧ kv.2 ≠ [] ∧
        ∀ t ∈ kv.2, pyStrip t ≠ []) ∧
    categorize_prompt none = [] ∧ categorize_prompt (some []) = [] := by
  refine ⟨?_, rfl, rfl⟩
  intro kv hkv
  cases p with
  | none => simp [categorize_prompt] at hkv
  | some s =>
    by_cases hs : s = []
    · rw [hs] at hkv
      simp [categorize_prompt] at hkv
    · simp only [categorize_prompt, if_neg hs] at hkv
      rcases mem_categorize_foldl _ _ _ _ hkv with h | ⟨cp, hcp, h1, h2, h3⟩
      · simp at h
      · refine ⟨?_, h3, ?_⟩
        · rw [h1]
          exact List.mem_map_of_mem _ hcp
        · intro t ht
          rw [h2] at ht
          obtain ⟨hne, hidem⟩ := mem_dedupSet ht
          rw [hidem]
          exact hne

/-- Witness for C6: the singleton prompt `beach` is categorized as an
environment term, and the invariants hold at that entry. -/
theorem categorize_prompt_invariants_witness :
    S "environment" ∈ CATEGORY_PATTERNS.map Prod.fst ∧
    [S "beach"] ≠ [] ∧ ∀ t ∈ [S "beach"], pyStrip t ≠ [] :=
  (categorize_prompt_invariants (some (S "beach"))).1
    (S "environment", [S "beach"]) (by decide)

/-- C4: end-to-end positive scenario.  The prompt
`1girl, sitting on a beach at sunset, masterpiece, 8k` is categorized with
subject containing 1girl, pose containing sitting, environment containing
beach and sunset, lighting containing sunset, and quality containing
masterpiece and 8k. -/
theorem categorize_scenario_positive :
    S "1girl" ∈ ((categorize_prompt (some (S "1girl, sitting on a beach at sunset, masterpiece, 8k"))).lookup (S "subject")).getD [] ∧
    S "sitting" ∈ ((categorize_prompt (some (S "1girl, sitting on a beach at sunset, masterpiece, 8k"))).lookup (S "pose")).getD [] ∧
    S "beach" ∈ ((categorize_prompt (some (S "1girl, sitting on a beach at sunset, masterpiece, 8k"))).lookup (S "environment")).getD [] ∧
    S "sunset" ∈ ((categorize_prompt (some (S "1girl, sitting on a beach at sunset, masterpiece, 8k"))).lookup (S "environment")).getD [] ∧
    S "sunset" ∈ ((categorize_prompt (some (S "1girl, sitting on a beach at sunset, masterpiece, 8k"))).lookup (S "lighting")).getD [] ∧
    S "masterpiece" ∈ ((categorize_prompt (some (S "1girl, sitting on a beach at sunset, masterpiece, 8k"))).lookup (S "quality")).getD [] ∧
    S "8k" ∈ ((categorize_prompt (some (S "1girl, sitting on a beach at sunset, masterpiece, 8k"))).lookup (S "quality")).getD [] := by
  have h : categorize_prompt (some (S "1girl, sitting on a beach at sunset, masterpiece, 8k")) =
      [(S "subject", [S "1girl"]),
       (S "pose", [S "sitting"]),
       (S "environment", [S "beach", S "sunset"]),
       (S "lighting", [S "sunset"]),
       (S "quality", [S "masterpiece", S "8k"])] := by rfl
  rw [h]
  decide

/-- Counterexample to C1 as stated: the anatomy category of the negative
scenario also contains the inner capture `fingers`, which the claim excludes
from the exact set. -/
theorem negative_scenario_counterexample :
    S "fingers" ∈ ((analyze_negative_prompt (some (S "worst quality, bad anatomy, missing fingers"))).lookup (S "anatomy")).getD [] ∧
    S "fingers" ∉ [S "bad anatomy", S "missing fingers"] := by
  have h : analyze_negative_prompt (some (S "worst quality, bad anatomy, missing fingers")) =
      [(S "quality", [S "worst quality"]),
       (S "anatomy", [S "bad anatomy", S "missing fingers", S "fingers"])] := by rfl
  rw [h]
  decide

/-- C1 (amended): the negative scenario maps quality to exactly the set
containing `worst quality` and anatomy to exactly the set containing
`bad anatomy`, `missing fingers` and `fingers` — the documented fan-out also
emits the non-empty inner capture of the alternation group as an independent
term. -/
theorem negative_scenario_amended :
    analyze_negative_prompt (some (S "worst quality, bad anatomy, missing fingers")) =
      [(S "quality", [S "worst quality"]),
       (S "anatomy", [S "bad anatomy", S "missing fingers", S "fingers"])] := by
  rfl

end Civitai
